import Mathlib

/-!
Verification of the course-bot report engine and selection session.

Shallow embedding of `src/main.py` (class `CourseBot`): the raw JSON-like
payload shapes, link selection (`get_video_links_by_preference`), report
generation (`generate_course_text_file`), the per-user session operations
(`batches_command`, `course_callback`, `fetch_course_data`) and the quality
preference store (`quality_callback`).  Dict keys that may be absent are
`Option` fields; Python `dict.get(k, d)` becomes `Option.getD`.
-/

/-- A course summary from the catalog payload: a dict with optional
`id` and `title` keys. -/
structure Course where
  id : Option String
  title : Option String
  deriving DecidableEq, Repr

/-- The `course` object of the detail payload (only `title` is read). -/
structure CourseInfo where
  title : Option String
  deriving DecidableEq, Repr

/-- One element of a class's `mp4Recordings` list. -/
structure Recording where
  url : Option String
  quality : Option String
  deriving DecidableEq, Repr

/-- One element of a class's `classPdf` list. -/
structure PdfEntry where
  url : Option String
  name : Option String
  deriving DecidableEq, Repr

/-- A class dict inside a topic; every key may be absent. -/
structure ClassData where
  title : Option String
  description : Option String
  teacherName : Option String
  class_link : Option String
  mp4Recordings : Option (List Recording)
  classPdf : Option (List PdfEntry)
  deriving DecidableEq, Repr

/-- A topic dict of the detail payload's `classes` list. -/
structure TopicData where
  topicName : Option String
  classes : Option (List ClassData)
  deriving DecidableEq, Repr

/-- An entry of the `video_links` list built by
`get_video_links_by_preference`. -/
structure VideoLink where
  url : String
  quality : String
  is_preferred : Bool
  deriving DecidableEq, Repr

/-- Python `s.startswith(p)` over the character sequences. -/
def pyStartsWith (s p : String) : Bool :=
  p.data.isPrefixOf s.data

/-- Python `s.lower()` (ASCII case folding suffices for quality labels). -/
def pyLower (s : String) : String :=
  String.mk (s.data.map Char.toLower)

/-- Python `s.upper()` (ASCII case folding suffices for quality labels). -/
def pyUpper (s : String) : String :=
  String.mk (s.data.map Char.toUpper)

/-- `url.startswith(('http://', 'https://'))`; in the source the check is
guarded by truthiness of the url, which is implied (an empty string starts
with neither). -/
def isHttpUrl (s : String) : Bool :=
  pyStartsWith s "http://" || pyStartsWith s "https://"

/-- Lines 309-311: emit a valid `class_link` first, labeled "Main Link",
never preferred. -/
def mainLinks (c : ClassData) : List VideoLink :=
  match c.class_link with
  | some l => if isHttpUrl l then [{ url := l, quality := "Main Link", is_preferred := false }] else []
  | none => []

/-- Lines 313-323: emit each recording with a valid url, in order, labeled
with its quality (default "Unknown"); preferred iff the preference is not
"all" and matches the quality case-insensitively. -/
def recLinks (c : ClassData) (preferred_quality : String) : List VideoLink :=
  (c.mp4Recordings.getD []).filterMap fun r =>
    match r.url with
    | some u =>
      if isHttpUrl u then
        some { url := u, quality := r.quality.getD "Unknown",
               is_preferred := (preferred_quality != "all")
                 && (pyLower (r.quality.getD "Unknown") == pyLower preferred_quality) }
      else none
    | none => none

/-- The full emission order of `get_video_links_by_preference` before the
conditional re-sort: main link first, then recordings. -/
def emitLinks (c : ClassData) (preferred_quality : String) : List VideoLink :=
  mainLinks c ++ recLinks c preferred_quality

/-- Lexicographic order on character sequences by code point: the order
Python uses when comparing the `str` components of sort keys. -/
def charListLe : List Char → List Char → Bool
  | [], _ => true
  | _ :: _, [] => false
  | a :: as, b :: bs => if a = b then charListLe as bs else decide (a < b)

/-- Python `<=` on strings: code-point lexicographic. -/
def strLe (a b : String) : Bool :=
  charListLe a.data b.data

/-- The sort key order of line 326, `key=lambda x: (not x["is_preferred"],
x["quality"])`: lexicographic on (negated preferred flag, quality label),
with `False < True` on the flag. -/
def linkLe (a b : VideoLink) : Bool :=
  if a.is_preferred == b.is_preferred then strLe a.quality b.quality else a.is_preferred

/-- `linkLe` as a relation, for use with `List.insertionSort`. -/
def linkRel (a b : VideoLink) : Prop :=
  linkLe a b = true

instance : DecidableRel linkRel := fun a b =>
  inferInstanceAs (Decidable (linkLe a b = true))

/-- `video_links.sort(...)` of line 326: Python's `list.sort` is a stable
sort, modelled by stable insertion sort with respect to the key order. -/
def sortLinks (l : List VideoLink) : List VideoLink :=
  List.insertionSort linkRel l

/-- Lines 306-328, `get_video_links_by_preference`. -/
def get_video_links_by_preference (c : ClassData) (preferred_quality : String) : List VideoLink :=
  let video_links := emitLinks c preferred_quality
  if preferred_quality != "all" then sortLinks video_links else video_links

/-- `"=" * 50`. -/
def eqRule : String :=
  String.mk (List.replicate 50 '=')

/-- `"-" * 30`. -/
def dashRule : String :=
  String.mk (List.replicate 30 '-')

/-- Line 368: `"    ✓ {url} (Quality: {quality})"`. -/
def preferredLine (l : VideoLink) : String :=
  "    ✓ " ++ l.url ++ " (Quality: " ++ l.quality ++ ")"

/-- Line 373: `"    • {url} (Quality: {quality})"`. -/
def otherLine (l : VideoLink) : String :=
  "    • " ++ l.url ++ " (Quality: " ++ l.quality ++ ")"

/-- Lines 375-377: flat rendering, checkmark for preferred else bullet. -/
def flatLine (l : VideoLink) : String :=
  "  " ++ (if l.is_preferred then "✓" else "•") ++ " " ++ l.url ++ " (Quality: " ++ l.quality ++ ")"

/-- Lines 358-378: the video-lecture lines of one class block.  Emitted only
when at least one link exists; grouped into preferred/other when the
preference is not "all" and some link is preferred, flat otherwise. -/
def videoSection (c : ClassData) (preferred_quality : String) : List String :=
  let video_links := get_video_links_by_preference c preferred_quality
  if video_links.isEmpty then [] else
    let preferred_found := video_links.any (fun l => l.is_preferred)
    ("Video Lectures:" ::
      (if preferred_quality != "all" && preferred_found then
        ("  Preferred Quality (" ++ pyUpper preferred_quality ++ "):")
          :: ((video_links.filter (fun l => l.is_preferred)).map preferredLine
            ++ ([""] ++ ("  Other Available Qualities:"
              :: (video_links.filter (fun l => !l.is_preferred)).map otherLine)))
      else
        video_links.map flatLine))
    ++ [""]

/-- Lines 380-386: the pdf entries surviving the url check, as (url, name)
pairs. -/
def validPdfs (c : ClassData) : List (String × String) :=
  (c.classPdf.getD []).filterMap fun p =>
    match p.url with
    | some u => if isHttpUrl u then some (u, p.name.getD "Unknown PDF") else none
    | none => none

/-- Line 386: `"{url} (Name: {name})"` for each valid pdf. -/
def pdfLinksOf (c : ClassData) : List String :=
  (validPdfs c).map fun pr => pr.1 ++ " (Name: " ++ pr.2 ++ ")"

/-- Lines 390-391: `"  {i}. {pdf_link}"`, 1-based numbering. -/
def numberLines (i : Nat) : List String → List String
  | [] => []
  | s :: rest => ("  " ++ toString i ++ ". " ++ s) :: numberLines (i + 1) rest

/-- Lines 388-392: the pdf-material lines of one class block. -/
def pdfSection (c : ClassData) : List String :=
  let pdf_links := pdfLinksOf c
  if pdf_links.isEmpty then [] else
    ("PDF Materials:" :: numberLines 1 pdf_links) ++ [""]

/-- Lines 347-395: the lines of one class block (1-based `idx`). -/
def classBlock (idx : Nat) (c : ClassData) (preferred_quality : String) : List String :=
  let class_title := c.title.getD ("Class " ++ toString idx)
  let class_description := c.description.getD ""
  let teacher_name := c.teacherName.getD "Unknown Teacher"
  (["Class " ++ toString idx ++ ": " ++ class_title]
    ++ (if class_description != "" then ["Description: " ++ class_description] else [])
    ++ ["Teacher: " ++ teacher_name, ""])
    ++ videoSection c preferred_quality
    ++ pdfSection c
    ++ [eqRule, ""]

/-- The class loop of lines 347-395, enumerating from `i`. -/
def classesLines (i : Nat) (cs : List ClassData) (preferred_quality : String) : List String :=
  match cs with
  | [] => []
  | c :: rest => classBlock i c preferred_quality ++ classesLines (i + 1) rest preferred_quality

/-- Lines 339-345: one topic's heading plus its class blocks. -/
def topicBlock (idx : Nat) (t : TopicData) (preferred_quality : String) : List String :=
  ("TOPIC: " ++ t.topicName.getD ("Topic " ++ toString idx))
    :: dashRule :: "" :: classesLines 1 (t.classes.getD []) preferred_quality

/-- The topic loop of line 339, enumerating from `i`. -/
def topicsLines (i : Nat) (ts : List TopicData) (preferred_quality : String) : List String :=
  match ts with
  | [] => []
  | t :: rest => topicBlock i t preferred_quality ++ topicsLines (i + 1) rest preferred_quality

/-- Lines 333-337: the report header.  `now` stands for the formatted
`datetime.now()` string, passed explicitly. -/
def headerLines (course_info : CourseInfo) (preferred_quality now : String) : List String :=
  ["Course Data Extracted on " ++ now,
   "Source: " ++ course_info.title.getD "Unknown Course",
   "Video Quality Preference: " ++ pyUpper preferred_quality,
   eqRule, ""]

/-- Lines 330-397, `generate_course_text_file`: the full report text,
`'\n'.join(lines)`. -/
def generate_course_text_file (course_info : CourseInfo) (classes_data : List TopicData)
    (preferred_quality now : String) : String :=
  String.intercalate "\n" (headerLines course_info preferred_quality now
    ++ topicsLines 1 classes_data preferred_quality)

/-! ## Session state and payload handling -/

/-- The per-user `context.user_data` entries the core reads and writes.
`available_courses` absent is indistinguishable from `[]` (line 156 reads it
with default `[]`); `selected_course_id` collapses "absent" and Python
`None` (line 188 treats them alike). -/
structure UserData where
  available_courses : List Course
  selected_course_id : Option String
  selected_course_title : Option String
  deriving DecidableEq, Repr

/-- The error outcomes of the payload-handling paths. -/
inductive BotError where
  | apiError (msg : String)
  | malformedPayload
  | noBatches
  | noClassData
  deriving DecidableEq, Repr

/-- The catalog payload of `/batches`: optional `state`, `msg`, `data`. -/
structure CatalogPayload where
  state : Option Int
  msg : Option String
  data : Option (List Course)
  deriving DecidableEq, Repr

/-- Lines 96-147, `batches_command` after a successful fetch+decode: checks
`state`, reads `data` with default `[]`, rejects an empty list, otherwise
stores the catalog in the user's session. -/
def batches_command (st : UserData) (p : CatalogPayload) : UserData × Except BotError (List Course) :=
  if p.state != some 200 then (st, .error (.apiError (p.msg.getD "Unknown error")))
  else
    let courses := p.data.getD []
    if courses.isEmpty then (st, .error .noBatches)
    else ({ st with available_courses := courses }, .ok courses)

/-- The inner `data` object of the detail payload. -/
structure DetailInner where
  course : Option CourseInfo
  classes : Option (List TopicData)
  deriving DecidableEq, Repr

/-- The course-detail payload fetched by `fetch_course_data`. -/
structure DetailPayload where
  state : Option Int
  msg : Option String
  data : Option DetailInner
  deriving DecidableEq, Repr

/-- Lines 201-256, `fetch_course_data` after a successful fetch+decode:
checks `state`, requires the root `data` key (line 227), defaults `course`
to `{}` and `classes` to `[]`, rejects empty classes, otherwise produces the
report text. -/
def fetch_outcome (p : DetailPayload) (preferred_quality now : String) : Except BotError String :=
  if p.state != some 200 then .error (.apiError (p.msg.getD "Unknown error"))
  else
    match p.data with
    | none => .error .malformedPayload
    | some d =>
      let course_info := d.course.getD { title := none }
      let classes_data := d.classes.getD []
      if classes_data.isEmpty then .error .noClassData
      else .ok (generate_course_text_file course_info classes_data preferred_quality now)

/-- The user-visible outcome of `course_callback`. -/
inductive CourseOutcome where
  | notFound
  | selected (c : Course)
  | errorCaught
  deriving DecidableEq, Repr

/-- Python list indexing `l[i]`: non-negative indices from the front,
negative indices from the back, `IndexError` (here `none`) outside
`[-len, len)`. -/
def pyGet (l : List Course) (i : Int) : Option Course :=
  if 0 ≤ i then l.get? i.toNat
  else if 0 ≤ i + l.length then l.get? (i + l.length).toNat
  else none

/-- Lines 149-177, `course_callback` with the integer parsed from the
callback data: rejects an empty catalog or an index `>= len(courses)`
(line 158), then indexes the list Python-style — an `IndexError` from a
too-negative index is swallowed by the `except` clause (line 175) with no
session change; on success records the selected course's id and title. -/
def course_callback (st : UserData) (course_index : Int) : UserData × CourseOutcome :=
  let courses := st.available_courses
  if courses.isEmpty || (courses.length : Int) ≤ course_index then (st, .notFound)
  else
    match pyGet courses course_index with
    | some selected_course =>
      ({ st with selected_course_id := selected_course.id,
                 selected_course_title := some (selected_course.title.getD "Unknown Course") },
       .selected selected_course)
    | none => (st, .errorCaught)

/-- The whole-bot mutable state: the per-user preference dict
`self.user_preferences`, the bot-level `self.available_courses`, and the
per-user `context.user_data`. -/
structure BotState where
  user_preferences : Nat → Option String
  bot_available_courses : List Course
  user_data : Nat → UserData

/-- Lines 288-304, `quality_callback`: both branches store the parsed
quality string for the user. -/
def quality_callback (bs : BotState) (user_id : Nat) (quality : String) : BotState :=
  { bs with user_preferences := fun u => if u = user_id then some quality else bs.user_preferences u }

/-- `batches_command` lifted to the whole-bot state: also mirrors the
catalog into `self.available_courses` on success (line 126). -/
def batches_step (bs : BotState) (user_id : Nat) (p : CatalogPayload) :
    BotState × Except BotError (List Course) :=
  let r := batches_command (bs.user_data user_id) p
  let newBot := match r.2 with
    | .ok courses => courses
    | .error _ => bs.bot_available_courses
  ({ bs with bot_available_courses := newBot,
             user_data := fun u => if u = user_id then r.1 else bs.user_data u }, r.2)

/-- `course_callback` lifted to the whole-bot state. -/
def course_step (bs : BotState) (user_id : Nat) (course_index : Int) : BotState × CourseOutcome :=
  let r := course_callback (bs.user_data user_id) course_index
  ({ bs with user_data := fun u => if u = user_id then r.1 else bs.user_data u }, r.2)

/-- Lines 201-266, `fetch_course_data` lifted to the whole-bot state: when
no explicit quality is passed it reads the user's stored preference with
default "720p" (lines 203-205); it writes no state. -/
def fetch_step (bs : BotState) (user_id : Nat) (pq : Option String) (p : DetailPayload)
    (now : String) : BotState × Except BotError String :=
  let preferred_quality := pq.getD ((bs.user_preferences user_id).getD "720p")
  (bs, fetch_outcome p preferred_quality now)

/-! ## Order and membership lemmas -/

theorem charListLe_total : ∀ a b : List Char, charListLe a b = true ∨ charListLe b a = true
  | [], _ => Or.inl rfl
  | _ :: _, [] => Or.inr rfl
  | a :: as, b :: bs => by
    rcases lt_trichotomy a b with h | h | h
    · left; simp [charListLe, ne_of_lt h, h]
    · subst h
      rcases charListLe_total as bs with h | h
      · left; simpa [charListLe] using h
      · right; simpa [charListLe] using h
    · right; simp [charListLe, ne_of_lt h, h]

theorem charListLe_trans : ∀ (a b c : List Char),
    charListLe a b = true → charListLe b c = true → charListLe a c = true
  | [], _, _, _, _ => rfl
  | _ :: _, [], _, h1, _ => by simp [charListLe] at h1
  | _ :: _, _ :: _, [], _, h2 => by simp [charListLe] at h2
  | a :: as, b :: bs, c :: cs, h1, h2 => by
    by_cases hab : a = b
    · subst hab
      by_cases hac : a = c
      · subst hac
        simp only [charListLe, if_pos rfl] at h1 h2 ⊢
        exact charListLe_trans as bs cs h1 h2
      · have hlt : a < c := by simpa [charListLe, hac] using h2
        simp [charListLe, hac, hlt]
    · by_cases hbc : b = c
      · subst hbc
        have hlt : a < b := by simpa [charListLe, hab] using h1
        simp [charListLe, hab, hlt]
      · have h1' : a < b := by simpa [charListLe, hab] using h1
        have h2' : b < c := by simpa [charListLe, hbc] using h2
        have : a < c := lt_trans h1' h2'
        simp [charListLe, ne_of_lt this, this]

theorem strLe_total (a b : String) : strLe a b = true ∨ strLe b a = true :=
  charListLe_total a.data b.data

theorem strLe_trans {a b c : String} (h1 : strLe a b = true) (h2 : strLe b c = true) :
    strLe a c = true :=
  charListLe_trans a.data b.data c.data h1 h2

theorem linkLe_total (a b : VideoLink) : linkLe a b = true ∨ linkLe b a = true := by
  unfold linkLe
  cases ha : a.is_preferred <;> cases hb : b.is_preferred <;> simp [ha, hb]
  · exact strLe_total a.quality b.quality
  · exact strLe_total a.quality b.quality

theorem linkLe_trans {a b c : VideoLink} (h1 : linkLe a b = true) (h2 : linkLe b c = true) :
    linkLe a c = true := by
  unfold linkLe at h1 h2 ⊢
  cases ha : a.is_preferred <;> cases hb : b.is_preferred <;> cases hc : c.is_preferred <;>
    simp [ha, hb, hc] at h1 h2 ⊢
  · exact strLe_trans h1 h2
  · exact strLe_trans h1 h2

instance : IsTotal VideoLink linkRel :=
  ⟨fun a b => linkLe_total a b⟩

instance : IsTrans VideoLink linkRel :=
  ⟨fun _ _ _ h1 h2 => linkLe_trans h1 h2⟩

theorem sortLinks_perm (l : List VideoLink) : List.Perm (sortLinks l) l :=
  List.perm_insertionSort linkRel l

theorem sortLinks_sorted (l : List VideoLink) : (sortLinks l).Pairwise linkRel :=
  List.sorted_insertionSort linkRel l

theorem mem_mainLinks_isHttp {c : ClassData} {l : VideoLink} (h : l ∈ mainLinks c) :
    isHttpUrl l.url = true := by
  unfold mainLinks at h
  rcases hcl : c.class_link with _ | u
  · simp [hcl] at h
  · rw [hcl] at h
    by_cases hv : isHttpUrl u = true
    · simp [hv] at h
      rw [h]
      exact hv
    · simp [hv] at h

theorem mem_mainLinks_not_preferred {c : ClassData} {l : VideoLink} (h : l ∈ mainLinks c) :
    l.is_preferred = false := by
  unfold mainLinks at h
  rcases hcl : c.class_link with _ | u
  · simp [hcl] at h
  · rw [hcl] at h
    by_cases hv : isHttpUrl u = true
    · simp [hv] at h
      rw [h]
    · simp [hv] at h

theorem mem_recLinks_isHttp {c : ClassData} {pq : String} {l : VideoLink}
    (h : l ∈ recLinks c pq) : isHttpUrl l.url = true := by
  unfold recLinks at h
  obtain ⟨r, _, hr⟩ := List.mem_filterMap.mp h
  rcases hu : r.url with _ | u
  · rw [hu] at hr; simp at hr
  · rw [hu] at hr
    by_cases hv : isHttpUrl u = true
    · simp only [hv, if_true, Option.some.injEq] at hr
      subst hr
      exact hv
    · simp [hv] at hr

theorem mem_recLinks_flag {c : ClassData} {pq : String} {l : VideoLink}
    (h : l ∈ recLinks c pq) :
    l.is_preferred = ((pq != "all") && (pyLower l.quality == pyLower pq)) := by
  unfold recLinks at h
  obtain ⟨r, _, hr⟩ := List.mem_filterMap.mp h
  rcases hu : r.url with _ | u
  · rw [hu] at hr; simp at hr
  · rw [hu] at hr
    by_cases hv : isHttpUrl u = true
    · simp only [hv, if_true, Option.some.injEq] at hr
      subst hr
      rfl
    · simp [hv] at hr

theorem mem_emitLinks_isHttp {c : ClassData} {pq : String} {l : VideoLink}
    (h : l ∈ emitLinks c pq) : isHttpUrl l.url = true := by
  rcases List.mem_append.mp h with h | h
  · exact mem_mainLinks_isHttp h
  · exact mem_recLinks_isHttp h

theorem mem_get_video_links {c : ClassData} {pq : String} {l : VideoLink}
    (h : l ∈ get_video_links_by_preference c pq) : l ∈ emitLinks c pq := by
  unfold get_video_links_by_preference at h
  by_cases hq : (pq != "all") = true
  · rw [if_pos hq] at h
    exact (sortLinks_perm _).subset h
  · rwa [if_neg hq] at h

/-! ## Claim theorems -/

/-- C1: for preference "720p" and a class with no classLink and recordings
[{720p, A}, {480p, B}, {720p, C}], all http(s), `get_video_links_by_preference`
returns [A, C] marked preferred in their original relative order, followed
by [B] not preferred. -/
theorem C1_select_720p_stable (A B C : String) (hA : isHttpUrl A = true)
    (hB : isHttpUrl B = true) (hC : isHttpUrl C = true) :
    get_video_links_by_preference
      { title := none, description := none, teacherName := none, class_link := none,
        mp4Recordings := some [⟨some A, some "720p"⟩, ⟨some B, some "480p"⟩, ⟨some C, some "720p"⟩],
        classPdf := none } "720p"
    = [⟨A, "720p", true⟩, ⟨C, "720p", true⟩, ⟨B, "480p", false⟩] := by
  unfold get_video_links_by_preference emitLinks mainLinks recLinks
  simp only [Option.getD, List.filterMap, hA, hB, hC, if_true]
  rfl

/-- Witness for C1 at concrete urls. -/
theorem C1_select_720p_stable_witness :
    get_video_links_by_preference
      { title := none, description := none, teacherName := none, class_link := none,
        mp4Recordings := some [⟨some "http://a", some "720p"⟩, ⟨some "http://b", some "480p"⟩,
          ⟨some "http://c", some "720p"⟩],
        classPdf := none } "720p"
    = [⟨"http://a", "720p", true⟩, ⟨"http://c", "720p", true⟩, ⟨"http://b", "480p", false⟩] :=
  C1_select_720p_stable "http://a" "http://b" "http://c" (by decide) (by decide) (by decide)

/-- C5: every link selected for emission — main link or recording — has an
http(s) url, and every pdf entry surviving extraction has an http(s) url;
the report's link lines are generated exclusively from these two lists
(`videoSection`, `pdfLinksOf`), so a Recording, PdfLink or classLink with a
missing or non-http(s) url is never emitted in the report. -/
theorem C5_no_invalid_url_emitted :
    (∀ (c : ClassData) (pq : String) (l : VideoLink),
      l ∈ get_video_links_by_preference c pq → isHttpUrl l.url = true) ∧
    (∀ (c : ClassData) (pr : String × String), pr ∈ validPdfs c → isHttpUrl pr.1 = true) := by
  constructor
  · intro c pq l h
    exact mem_emitLinks_isHttp (mem_get_video_links h)
  · intro c pr h
    unfold validPdfs at h
    obtain ⟨p, _, hp⟩ := List.mem_filterMap.mp h
    rcases hu : p.url with _ | u
    · rw [hu] at hp; simp at hp
    · rw [hu] at hp
      by_cases hv : isHttpUrl u = true
      · simp only [hv, if_true, Option.some.injEq] at hp
        subst hp
        exact hv
      · simp [hv] at hp

/-- A concrete class used to witness the link-selection claims. -/
def c5Class : ClassData :=
  { title := none, description := none, teacherName := none, class_link := none,
    mp4Recordings := some [⟨some "https://v", some "720p"⟩],
    classPdf := some [⟨some "https://p", some "Notes"⟩] }

/-- Witness for C5 at a concrete class and link. -/
theorem C5_no_invalid_url_emitted_witness :
    isHttpUrl (VideoLink.mk "https://v" "720p" true).url = true :=
  C5_no_invalid_url_emitted.1 c5Class "720p" ⟨"https://v", "720p", true⟩ (by decide)

/-- C7: for preference "all" the selection is exactly the emission order —
valid main link first, then the valid recordings in original order — with
no re-sort, and every entry has `is_preferred = false`. -/
theorem C7_all_keeps_emission_order :
    (∀ c : ClassData, get_video_links_by_preference c "all" = mainLinks c ++ recLinks c "all") ∧
    (∀ (c : ClassData) (l : VideoLink), l ∈ get_video_links_by_preference c "all" →
      l.is_preferred = false) := by
  constructor
  · intro c
    rfl
  · intro c l h
    rcases List.mem_append.mp (mem_get_video_links h) with h' | h'
    · exact mem_mainLinks_not_preferred h'
    · have hf := mem_recLinks_flag h'
      simpa using hf

/-- Witness for C7 at a concrete class and link. -/
theorem C7_all_keeps_emission_order_witness :
    (VideoLink.mk "https://v" "720p" false).is_preferred = false :=
  C7_all_keeps_emission_order.2 c5Class ⟨"https://v", "720p", false⟩ (by decide)

/-- C8 (amended): report generation is total and lenient — an empty topic
list yields a header-only report; a class without a `classPdf` key gets no
PDF Materials section; a class without an `mp4Recordings` key and without a
valid main link gets no Video Lectures section.  (A valid `classLink` alone
still produces a Video Lectures section, which is why the amendment
qualifies the original claim.) -/
theorem C8_lenient_sections :
    (∀ (info : CourseInfo) (pq now : String),
      generate_course_text_file info [] pq now
        = String.intercalate "\n" (headerLines info pq now)) ∧
    (∀ c : ClassData, c.classPdf = none → pdfSection c = []) ∧
    (∀ (c : ClassData) (pq : String), c.mp4Recordings = none → mainLinks c = [] →
      videoSection c pq = []) := by
  refine ⟨fun info pq now => ?_, fun c h => ?_, fun c pq h1 h2 => ?_⟩
  · simp [generate_course_text_file, topicsLines]
  · simp [pdfSection, pdfLinksOf, validPdfs, h]
  · simp [videoSection, get_video_links_by_preference, emitLinks, recLinks, sortLinks, h1, h2]

/-- A class with a valid main link but no `mp4Recordings` key: its video
section is not omitted. -/
def c8Class : ClassData :=
  { title := none, description := none, teacherName := none, class_link := some "http://x",
    mp4Recordings := none, classPdf := none }

/-- Counterexample to C8 as stated: a class lacking the `mp4Recordings`
key whose Video Lectures section is nevertheless rendered (its valid
`classLink` alone populates it). -/
theorem C8_counterexample :
    c8Class.mp4Recordings = none ∧ "Video Lectures:" ∈ videoSection c8Class "720p" := by
  decide

/-- A class dict with every key absent. -/
def c8Empty : ClassData :=
  { title := none, description := none, teacherName := none, class_link := none,
    mp4Recordings := none, classPdf := none }

/-- Witness for C8 at a concrete fully-empty class. -/
theorem C8_lenient_sections_witness : videoSection c8Empty "720p" = [] :=
  C8_lenient_sections.2.2 c8Empty "720p" rfl rfl

/-- C9: when the preference is not "all" and every selected link is
preferred, the video section still prints the "Other Available Qualities:"
group header with zero entries under it (the next line is the closing
blank), and that header line therefore appears in the class block. -/
theorem C9_empty_other_group (idx : Nat) (c : ClassData) (pq : String)
    (hq : pq ≠ "all")
    (hnil : get_video_links_by_preference c pq ≠ [])
    (hall : ∀ l ∈ get_video_links_by_preference c pq, l.is_preferred = true) :
    videoSection c pq =
      "Video Lectures:"
        :: ("  Preferred Quality (" ++ pyUpper pq ++ "):")
        :: ((get_video_links_by_preference c pq).map preferredLine
          ++ ["", "  Other Available Qualities:", ""]) ∧
    "  Other Available Qualities:" ∈ classBlock idx c pq := by
  have hbne : (pq != "all") = true := by simpa [bne_iff_ne] using hq
  have hempty : (get_video_links_by_preference c pq).isEmpty = false := by
    have : ¬ ((get_video_links_by_preference c pq).isEmpty = true) := fun h =>
      hnil (List.isEmpty_iff.mp h)
    exact Bool.not_eq_true _ |>.mp this
  have hany : (get_video_links_by_preference c pq).any (fun l => l.is_preferred) = true := by
    obtain ⟨x, hx⟩ := List.exists_mem_of_ne_nil _ hnil
    exact List.any_eq_true.mpr ⟨x, hx, hall x hx⟩
  have hfilter1 : (get_video_links_by_preference c pq).filter (fun l => l.is_preferred)
      = get_video_links_by_preference c pq := List.filter_eq_self.mpr hall
  have hfilter2 : (get_video_links_by_preference c pq).filter (fun l => !l.is_preferred) = [] := by
    refine List.filter_eq_nil_iff.mpr fun a ha => ?_
    simp [hall a ha]
  have hvs : videoSection c pq =
      "Video Lectures:"
        :: ("  Preferred Quality (" ++ pyUpper pq ++ "):")
        :: ((get_video_links_by_preference c pq).map preferredLine
          ++ ["", "  Other Available Qualities:", ""]) := by
    unfold videoSection
    simp [hempty, hbne, hany, hfilter1, hfilter2]
  refine ⟨hvs, ?_⟩
  have hmem : "  Other Available Qualities:" ∈ videoSection c pq := by
    rw [hvs]; simp
  unfold classBlock
  simp [List.mem_append, hmem]

/-- Witness for C9 at a concrete class whose single link is preferred. -/
theorem C9_empty_other_group_witness :
    "  Other Available Qualities:" ∈ classBlock 1 c5Class "720p" :=
  (C9_empty_other_group 1 c5Class "720p" (by decide) (by decide) (by decide)).2

/-- A class whose emission order (480p before 1080p) differs from the
re-sorted order ("1080p" < "480p" lexicographically). -/
def c10Class : ClassData :=
  { title := none, description := none, teacherName := none, class_link := none,
    mp4Recordings := some [⟨some "http://u1", some "480p"⟩, ⟨some "http://u2", some "1080p"⟩],
    classPdf := none }

/-- C10: when the preference is not "all" and no selected link is
preferred, the section is one flat bulleted list in the re-sorted order:
ascending lexicographic quality label (a "Main Link" entry sorts by that
literal label), every entry bulleted, and the re-sorted order genuinely
differs from the emission order on a concrete class. -/
theorem C10_unmatched_flat_sorted (c : ClassData) (pq : String)
    (hq : pq ≠ "all")
    (hnil : get_video_links_by_preference c pq ≠ [])
    (hnone : ∀ l ∈ get_video_links_by_preference c pq, l.is_preferred = false) :
    videoSection c pq
      = "Video Lectures:" :: ((get_video_links_by_preference c pq).map flatLine ++ [""]) ∧
    (get_video_links_by_preference c pq).Pairwise (fun a b => strLe a.quality b.quality = true) ∧
    (∀ l ∈ get_video_links_by_preference c pq,
      flatLine l = "  • " ++ l.url ++ " (Quality: " ++ l.quality ++ ")") ∧
    get_video_links_by_preference c10Class "720p" ≠ emitLinks c10Class "720p" := by
  have hbne : (pq != "all") = true := by simpa [bne_iff_ne] using hq
  have hempty : (get_video_links_by_preference c pq).isEmpty = false := by
    have : ¬ ((get_video_links_by_preference c pq).isEmpty = true) := fun h =>
      hnil (List.isEmpty_iff.mp h)
    exact Bool.not_eq_true _ |>.mp this
  have hany : (get_video_links_by_preference c pq).any (fun l => l.is_preferred) = false := by
    rw [List.any_eq_false]
    intro a ha
    simp [hnone a ha]
  refine ⟨?_, ?_, ?_, by decide⟩
  · unfold videoSection
    simp [hempty, hbne, hany]
  · have hLdef : get_video_links_by_preference c pq = sortLinks (emitLinks c pq) := by
      unfold get_video_links_by_preference
      simp [hbne]
    have hp : (get_video_links_by_preference c pq).Pairwise linkRel := by
      rw [hLdef]; exact sortLinks_sorted _
    refine hp.imp_of_mem ?_
    intro a b ha hb hr
    have ha' := hnone a ha
    have hb' := hnone b hb
    unfold linkRel linkLe at hr
    rw [ha', hb'] at hr
    simpa using hr
  · intro l hl
    unfold flatLine
    rw [hnone l hl]
    rfl

/-- Witness for C10 at a concrete class with no preferred link. -/
theorem C10_unmatched_flat_sorted_witness :
    videoSection c10Class "720p"
      = "Video Lectures:" :: ((get_video_links_by_preference c10Class "720p").map flatLine ++ [""]) :=
  (C10_unmatched_flat_sorted c10Class "720p" (by decide) (by decide) (by decide)).1

deriving instance DecidableEq for Except

/-- C2 (amended): from a held catalog of N courses, `course_callback` with
internal index `i` (user-facing position `i+1`) rejects an empty catalog or
`i ≥ N` without touching the session; for `0 ≤ i < N` it records the
selected course; but a negative index in `[-N, -1]` (user-facing position
`≤ 0`, outside `[1, N]`) is *not* rejected — Python indexing selects from
the back and the session is mutated; an index below `-N` raises an
`IndexError` that the `except` clause swallows, leaving the session
unchanged. -/
theorem C2_selectByPosition_cases (st : UserData) (i : Int) :
    (st.available_courses = [] ∨ (st.available_courses.length : Int) ≤ i →
      course_callback st i = (st, .notFound)) ∧
    (0 ≤ i → i < (st.available_courses.length : Int) →
      ∀ c, st.available_courses.get? i.toNat = some c →
      course_callback st i =
        ({ st with selected_course_id := c.id,
                   selected_course_title := some (c.title.getD "Unknown Course") }, .selected c)) ∧
    (i < 0 → 0 ≤ i + st.available_courses.length →
      ∀ c, st.available_courses.get? (i + st.available_courses.length).toNat = some c →
      course_callback st i =
        ({ st with selected_course_id := c.id,
                   selected_course_title := some (c.title.getD "Unknown Course") }, .selected c)) ∧
    (st.available_courses ≠ [] → i + st.available_courses.length < 0 →
      course_callback st i = (st, .errorCaught)) := by
  refine ⟨?_, ?_, ?_, ?_⟩
  · intro h
    unfold course_callback
    rcases h with h | h
    · simp [h]
    · simp [decide_eq_true h]
  · intro h0 hlen c hc
    have hne : st.available_courses ≠ [] := by
      intro hh; rw [hh] at hc; simp at hc
    have hA : st.available_courses.isEmpty = false := by
      have : ¬ (st.available_courses.isEmpty = true) := fun hh => hne (List.isEmpty_iff.mp hh)
      exact Bool.not_eq_true _ |>.mp this
    have hB : ¬ ((st.available_courses.length : Int) ≤ i) := not_le.mpr hlen
    unfold course_callback pyGet
    rw [List.get?_eq_getElem?] at hc
    simp [hA, hB, h0, hc]
  · intro hneg h0 c hc
    have hne : st.available_courses ≠ [] := by
      intro hh; rw [hh] at hc; simp at hc
    have hA : st.available_courses.isEmpty = false := by
      have : ¬ (st.available_courses.isEmpty = true) := fun hh => hne (List.isEmpty_iff.mp hh)
      exact Bool.not_eq_true _ |>.mp this
    have hB : ¬ ((st.available_courses.length : Int) ≤ i) := by
      intro hh
      have : (0 : Int) ≤ st.available_courses.length := by positivity
      omega
    have hnot0 : ¬ (0 : Int) ≤ i := not_le.mpr hneg
    unfold course_callback pyGet
    rw [List.get?_eq_getElem?] at hc
    simp [hA, hB, hnot0, h0, hc]
  · intro hne hsum
    have hA : st.available_courses.isEmpty = false := by
      have : ¬ (st.available_courses.isEmpty = true) := fun hh => hne (List.isEmpty_iff.mp hh)
      exact Bool.not_eq_true _ |>.mp this
    have hlen0 : (0 : Int) ≤ st.available_courses.length := by positivity
    have hB : ¬ ((st.available_courses.length : Int) ≤ i) := by omega
    have hnot0 : ¬ (0 : Int) ≤ i := by omega
    have hnotsum : ¬ (0 : Int) ≤ i + st.available_courses.length := not_le.mpr hsum
    unfold course_callback pyGet
    simp [hA, hB, hnot0, hnotsum]

/-- The single course of the C2 counterexample catalog. -/
def c2Course : Course := { id := some "c1", title := some "Course One" }

/-- A session holding a one-course catalog with no selection. -/
def c2State : UserData :=
  { available_courses := [c2Course], selected_course_id := none, selected_course_title := none }

/-- Counterexample to C2 as stated: with a catalog of 1 course, internal
index -1 (user-facing position 0, outside [1, 1]) is not rejected — the
callback selects the last course and mutates the session. -/
theorem C2_counterexample :
    (course_callback c2State (-1)).2 = CourseOutcome.selected c2Course ∧
    (course_callback c2State (-1)).1 ≠ c2State := by
  decide

/-- Witness for C2 at a concrete in-range selection. -/
theorem C2_selectByPosition_cases_witness :
    course_callback c2State 0 =
      ({ c2State with selected_course_id := some "c1",
                      selected_course_title := some "Course One" }, .selected c2Course) :=
  (C2_selectByPosition_cases c2State 0).2.1 (by decide) (by decide) c2Course (by decide)

/-- C3 (amended): `batches_command` with a well-formed non-empty course
list succeeds from any session state and replaces the held catalog — but
every other session field, including a previously recorded selection, is
left unchanged (the prior selection is *not* discarded). -/
theorem C3_loadCatalog_keeps_selection (st : UserData) (p : CatalogPayload)
    (courses : List Course)
    (h200 : p.state = some 200) (hdata : p.data = some courses) (hne : courses ≠ []) :
    batches_command st p = ({ st with available_courses := courses }, .ok courses) := by
  unfold batches_command
  rw [h200]
  simp [hdata, List.isEmpty_iff, hne]

/-- A session in the course-selected state (catalog plus recorded
selection). -/
def c3State : UserData :=
  { available_courses := [⟨some "old", some "Old Course"⟩],
    selected_course_id := some "old", selected_course_title := some "Old Course" }

/-- A fresh successful catalog payload. -/
def c3Payload : CatalogPayload :=
  { state := some 200, msg := none, data := some [⟨some "new", some "New Course"⟩] }

/-- Counterexample to C3 as stated: reloading the catalog while a selection
is recorded replaces the catalog but retains the prior selection, so the
session does not return to a pure catalog-held state. -/
theorem C3_counterexample :
    (batches_command c3State c3Payload).1.available_courses = [⟨some "new", some "New Course"⟩] ∧
    (batches_command c3State c3Payload).1.selected_course_id = some "old" ∧
    (batches_command c3State c3Payload).1.selected_course_title = some "Old Course" := by
  decide

/-- Witness for C3 at the concrete state and payload. -/
theorem C3_loadCatalog_keeps_selection_witness :
    batches_command c3State c3Payload
      = ({ c3State with available_courses := [⟨some "new", some "New Course"⟩] },
         .ok [⟨some "new", some "New Course"⟩]) :=
  C3_loadCatalog_keeps_selection c3State c3Payload [⟨some "new", some "New Course"⟩]
    rfl rfl (by decide)

/-- C4 (amended): only the course-detail path checks the root `data`
container — with API state 200 it fails with MalformedPayload exactly when
`data` is absent; the catalog path never produces MalformedPayload (an
absent root `data` defaults to `[]` and is reported as no-batches); a
missing or empty `classes` list aborts with a no-class-data error; all
other absences below the root are defaulted and the report is produced. -/
theorem C4_root_strictness :
    (∀ (p : DetailPayload) (pq now : String), p.state = some 200 →
      (fetch_outcome p pq now = Except.error BotError.malformedPayload ↔ p.data = none)) ∧
    (∀ (st : UserData) (p : CatalogPayload),
      (batches_command st p).2 ≠ Except.error BotError.malformedPayload) ∧
    (∀ (p : DetailPayload) (d : DetailInner) (pq now : String),
      p.state = some 200 → p.data = some d → d.classes.getD [] = [] →
      fetch_outcome p pq now = Except.error BotError.noClassData) ∧
    (∀ (p : DetailPayload) (d : DetailInner) (pq now : String),
      p.state = some 200 → p.data = some d → d.classes.getD [] ≠ [] →
      fetch_outcome p pq now
        = Except.ok (generate_course_text_file (d.course.getD { title := none })
            (d.classes.getD []) pq now)) := by
  refine ⟨?_, ?_, ?_, ?_⟩
  · intro p pq now h200
    unfold fetch_outcome
    rw [h200]
    rcases hd : p.data with _ | d
    · simp
    · by_cases hcl : (d.classes.getD []).isEmpty = true
      · simp [hcl]
      · simp [hcl]
  · intro st p
    unfold batches_command
    by_cases h : (p.state != some 200) = true
    · simp [h]
    · by_cases h2 : (p.data.getD []).isEmpty = true
      · simp [h, h2]
      · simp [h, h2]
  · intro p d pq now h200 hdata hcl
    unfold fetch_outcome
    rw [h200, hdata]
    simp [List.isEmpty_iff, hcl]
  · intro p d pq now h200 hdata hcl
    unfold fetch_outcome
    rw [h200, hdata]
    simp [List.isEmpty_iff, hcl]

/-- An empty idle session. -/
def c4UD : UserData :=
  { available_courses := [], selected_course_id := none, selected_course_title := none }

/-- A catalog payload with state 200 but no root `data` container. -/
def c4Catalog : CatalogPayload := { state := some 200, msg := none, data := none }

/-- Counterexample to C4 as stated: a catalog payload whose root `data` is
absent does not produce MalformedPayload — the absence defaults to an empty
list and the outcome is the no-batches report. -/
theorem C4_counterexample :
    c4Catalog.data = none ∧
    (batches_command c4UD c4Catalog).2 = Except.error BotError.noBatches ∧
    (Except.error BotError.noBatches : Except BotError (List Course))
      ≠ Except.error BotError.malformedPayload := by
  decide

/-- A detail payload with state 200 but no root `data` container. -/
def c4Detail : DetailPayload := { state := some 200, msg := none, data := none }

/-- Witness for C4: the detail path does fail with MalformedPayload when
the root `data` is absent. -/
theorem C4_root_strictness_witness :
    fetch_outcome c4Detail "720p" "2026-10-12" = Except.error BotError.malformedPayload :=
  (C4_root_strictness.1 c4Detail "720p" "2026-10-12" rfl).mpr rfl

/-- C6: the catalog-load, selection and extraction operations never touch
the per-user preference store; extraction reads it (default "720p") to pick
the quality; only `quality_callback` writes it, and only for the acting
user; `quality_callback` touches no session data. -/
theorem C6_preference_frame :
    (∀ (bs : BotState) (u : Nat) (p : CatalogPayload),
      (batches_step bs u p).1.user_preferences = bs.user_preferences) ∧
    (∀ (bs : BotState) (u : Nat) (i : Int),
      (course_step bs u i).1.user_preferences = bs.user_preferences) ∧
    (∀ (bs : BotState) (u : Nat) (pq : Option String) (p : DetailPayload) (now : String),
      (fetch_step bs u pq p now).1 = bs) ∧
    (∀ (bs : BotState) (u : Nat) (p : DetailPayload) (now : String),
      (fetch_step bs u none p now).2
        = fetch_outcome p ((bs.user_preferences u).getD "720p") now) ∧
    (∀ (bs : BotState) (u : Nat) (q : String),
      (quality_callback bs u q).user_preferences u = some q) ∧
    (∀ (bs : BotState) (u : Nat) (q : String) (u' : Nat), u' ≠ u →
      (quality_callback bs u q).user_preferences u' = bs.user_preferences u') ∧
    (∀ (bs : BotState) (u : Nat) (q : String),
      (quality_callback bs u q).user_data = bs.user_data) := by
  refine ⟨fun bs u p => rfl, fun bs u i => rfl, fun bs u pq p now => rfl,
    fun bs u p now => rfl, fun bs u q => by simp [quality_callback],
    fun bs u q u' h => by simp [quality_callback, h], fun bs u q => rfl⟩

/-- A concrete whole-bot state for the C6 witness. -/
def bs0 : BotState :=
  { user_preferences := fun _ => none, bot_available_courses := [], user_data := fun _ => c4UD }

/-- Witness for C6: setting user 0's preference leaves user 1's entry
unchanged. -/
theorem C6_preference_frame_witness :
    (quality_callback bs0 0 "1080p").user_preferences 1 = bs0.user_preferences 1 :=
  C6_preference_frame.2.2.2.2.2.1 bs0 0 "1080p" 1 (by decide)
